import Mathlib

/-!
Verification development for a minimal Flappy-Bird-style arcade simulation
(Rust/Bevy, single file `src/main.rs`).

The per-frame simulation logic is embedded shallowly:

* `f32` values are modelled as rationals (`ℚ`); all constants of the source
  are exactly representable.
* The Bevy ECS plumbing is stripped: the single bird entity is the record
  `Bird` (its `Bird` component's `velocity` together with the `Transform`
  data the systems read and write), an obstacle entity is the record
  `Obstacle` (its `pipe_direction` component together with its
  `Transform.translation`), and the world is the bird plus the list of
  obstacle entities.
* The bird's `Transform.rotation` is `Quat::from_axis_angle(Z, θ.to_radians())`
  with `θ = clamp(velocity / VELOCITY_TO_ROTATION_RATIO, -90, 90)`; since
  `to_radians` and the axis-angle construction are fixed injective maps on the
  clamped range `[-90°, 90°]`, the rotation state is represented by the degree
  value `θ` itself (field `rotationDeg`).
* Randomness: `thread_rng` draws are modelled as explicit parameters.
  `update_obsacles` calls `generate_offset` exactly once, before its loop,
  so it takes a single `y_offset : ℚ` parameter; `spawn_obstacles` draws one
  offset per loop iteration, so it takes `offs : ℕ → ℚ` (the value drawn at
  iteration `i` is `offs i`).
* Bevy `Commands` (despawn/respawn of obstacles on death) are deferred in the
  engine but their net effect on the world is immediate replacement of the
  obstacle list; the embedding applies that effect directly.
* In the source, `transform.translation += bird.velocity * time.delta_secs()`
  adds the scalar `velocity * dt` to all three components of the `Vec3`
  (glam's scalar `AddAssign` broadcasts); `stepTranslation` reproduces that.
-/

/-- A 3-component vector over ℚ, modelling glam's `Vec3` (`f32` components). -/
structure Vec3 where
  x : ℚ
  y : ℚ
  z : ℚ
deriving DecidableEq, Repr

/-- Constant `Vec3::ZERO`. -/
def Vec3.ZERO : Vec3 := ⟨0, 0, 0⟩

/-- The bird entity: the `Bird` component's `velocity` plus the parts of its
`Transform` the systems use (`translation`, and the rotation angle in degrees
that determines `Transform.rotation`, see the file docstring). -/
structure Bird where
  velocity : ℚ
  translation : Vec3
  rotationDeg : ℚ
deriving DecidableEq, Repr

/-- An obstacle entity: the `Obstacle` component's `pipe_direction` plus its
`Transform.translation`. -/
structure Obstacle where
  pipe_direction : ℚ
  translation : Vec3
deriving DecidableEq, Repr

/-- The simulation state acted on by the two `Update` systems. -/
structure World where
  bird : Bird
  obstacles : List Obstacle
deriving DecidableEq, Repr

def PIXEL_RATIO : ℚ := 4
def GRAVITY : ℚ := 2000
def FLAP_FORCE : ℚ := 500
def VELOCITY_TO_ROTATION_RATIO : ℚ := 15 / 2
def OBSTACLE_AMOUNT : ℕ := 5
def OBSTACLE_WIDTH : ℚ := 32
def OBSTACLE_HEIGHT : ℚ := 144
def OBSTACLE_VERTICAL_OFFSET : ℚ := 30
def OBSTACLE_GAP_SIZE : ℚ := 15
def OBSTACLE_SPACING : ℚ := 60
def OBSTACLE_SCROLL_SPEED : ℚ := 150

/-- Source function `get_centered_pipe_position`. -/
def get_centered_pipe_position : ℚ :=
  (OBSTACLE_HEIGHT / 2 + OBSTACLE_GAP_SIZE) * PIXEL_RATIO

/-- Source function `generate_offset`: the raw draw `r` from
`gen_range(-OBSTACLE_VERTICAL_OFFSET..OBSTACLE_VERTICAL_OFFSET)` is a
parameter; the function scales it by `PIXEL_RATIO`. -/
def generate_offset (r : ℚ) : ℚ := r * PIXEL_RATIO

/-- Source function `spawn_obstacles`: for each `i < OBSTACLE_AMOUNT` draw one offset
(`offs i`), compute `x_pos = window_width / 2 * PIXEL_RATIO * i`, and spawn
the pair of pipes at `x_pos` with vertical placement
`±get_centered_pipe_position + offset` and directions `1` / `-1`
(`spawn_obstacle` places each at `Vec3::X * x_pos + Vec3::Y * y`, so `z = 0`). -/
def spawn_obstacles (offs : ℕ → ℚ) (window_width : ℚ) : List Obstacle :=
  (List.range OBSTACLE_AMOUNT).flatMap (fun i =>
    let y_offset := offs i
    let x_pos := window_width / 2 * PIXEL_RATIO * (i : ℚ)
    [⟨1, ⟨x_pos, get_centered_pipe_position + y_offset, 0⟩⟩,
     ⟨-1, ⟨x_pos, -get_centered_pipe_position + y_offset, 0⟩⟩])

/-- Source system `update_obsacles` (source spelling): scroll every obstacle left by
`delta_secs * OBSTACLE_SCROLL_SPEED`; any obstacle whose post-scroll `x`
satisfies `x + OBSTACLE_WIDTH * PIXEL_RATIO / 2 < -window_width / 2` is pushed
forward by `OBSTACLE_AMOUNT * OBSTACLE_SPACING * PIXEL_RATIO` and has its `y`
set to `get_centered_pipe_position * pipe_direction + y_offset`, where
`y_offset` is the single offset drawn once at the start of the call. -/
def update_obsacles (dt y_offset window_width : ℚ) (obs : List Obstacle) :
    List Obstacle :=
  obs.map (fun ob =>
    let x1 := ob.translation.x - dt * OBSTACLE_SCROLL_SPEED
    if x1 + OBSTACLE_WIDTH * PIXEL_RATIO / 2 < -window_width / 2 then
      { ob with translation :=
          ⟨x1 + (OBSTACLE_AMOUNT : ℚ) * OBSTACLE_SPACING * PIXEL_RATIO,
           get_centered_pipe_position * ob.pipe_direction + y_offset,
           ob.translation.z⟩ }
    else
      { ob with translation := { ob.translation with x := x1 } })

/-- Velocity after the input check: `if keys.just_pressed(Space) { velocity = FLAP_FORCE }`. -/
def velAfterInput (just_pressed : Bool) (v : ℚ) : ℚ :=
  if just_pressed then FLAP_FORCE else v

/-- The bird's in-step velocity: input check, then `velocity -= delta_secs * GRAVITY`. -/
def stepVelocity (just_pressed : Bool) (dt v : ℚ) : ℚ :=
  velAfterInput just_pressed v - dt * GRAVITY

/-- Translation update `transform.translation += bird.velocity * time.delta_secs()`: glam's
scalar `AddAssign<f32>` broadcast adds `v * dt` to all three components. -/
def stepTranslation (t : Vec3) (v dt : ℚ) : Vec3 :=
  ⟨t.x + v * dt, t.y + v * dt, t.z + v * dt⟩

/-- The rotation angle in degrees:
`f32::clamp(velocity / VELOCITY_TO_ROTATION_RATIO, -90., 90.)`. -/
def rotationFromVelocity (v : ℚ) : ℚ :=
  max (-90) (min 90 (v / VELOCITY_TO_ROTATION_RATIO))

/-- The per-obstacle test of the collision loop in `update_bird`: the source
combines the two axis-overlap tests with `||`. -/
def obstacleHit (t : Vec3) (ob : Obstacle) : Bool :=
  decide (|ob.translation.y - t.y| < OBSTACLE_HEIGHT * PIXEL_RATIO / 2)
  || decide (|ob.translation.x - t.x| < OBSTACLE_WIDTH * PIXEL_RATIO / 2)

/-- The death check of `update_bird`: first
`translation.y < window_dimentions.y / 2`, else the loop over obstacles. -/
def birdDead (window_height : ℚ) (t : Vec3) (obs : List Obstacle) : Bool :=
  decide (t.y < window_height / 2) || obs.any (obstacleHit t)

/-- Whether the bird ends this step dead, with the in-step translation and
velocity spelled out. -/
def stepDead (dt : ℚ) (just_pressed : Bool) (window_height : ℚ) (w : World) :
    Bool :=
  birdDead window_height
    (stepTranslation w.bird.translation
      (stepVelocity just_pressed dt w.bird.velocity) dt)
    w.obstacles

/-- Source system `update_bird`: input check, gravity, translation update, rotation from the
new velocity, then the death check; if dead, the translation is set to
`Vec3::ZERO`, the velocity to `0`, all obstacles are despawned and
`spawn_obstacles` is called with fresh draws (`respawn_offs`) and
`window_dimentions.x`. The rotation written earlier in the step is not
touched by the dead branch. -/
def update_bird (dt : ℚ) (just_pressed : Bool) (window_dimentions : ℚ × ℚ)
    (respawn_offs : ℕ → ℚ) (w : World) : World :=
  let v := stepVelocity just_pressed dt w.bird.velocity
  let t := stepTranslation w.bird.translation v dt
  let rot := rotationFromVelocity v
  if stepDead dt just_pressed window_dimentions.2 w then
    { bird := { velocity := 0, translation := Vec3.ZERO, rotationDeg := rot },
      obstacles := spawn_obstacles respawn_offs window_dimentions.1 }
  else
    { bird := { velocity := v, translation := t, rotationDeg := rot },
      obstacles := w.obstacles }

/-- The obstacle pool spawned by `spawn_obstacles` always holds
`2 * OBSTACLE_AMOUNT` obstacles. -/
theorem spawn_obstacles_length (offs : ℕ → ℚ) (window_width : ℚ) :
    (spawn_obstacles offs window_width).length = 2 * OBSTACLE_AMOUNT := by
  simp [spawn_obstacles, OBSTACLE_AMOUNT, List.range_succ]

/-- Element formula for `spawn_obstacles`: entry `i` is the pipe of pair
`i / 2`, pointing up for even `i` and down for odd `i`. -/
theorem spawn_obstacles_get (offs : ℕ → ℚ) (window_width : ℚ) (i : ℕ)
    (h : i < (spawn_obstacles offs window_width).length) :
    (spawn_obstacles offs window_width).get ⟨i, h⟩ =
      ⟨if i % 2 = 0 then 1 else -1,
       ⟨window_width / 2 * PIXEL_RATIO * ((i / 2 : ℕ) : ℚ),
        (if i % 2 = 0 then get_centered_pipe_position
         else -get_centered_pipe_position) + offs (i / 2), 0⟩⟩ := by
  have h10 : i < 10 := by
    simpa [spawn_obstacles_length, OBSTACLE_AMOUNT] using h
  interval_cases i <;> rfl


/-- Claim C1 (code_bug evidence): at this concrete step the flyer has not
fallen below the screen bound, and no obstacle overlaps it on both axes
(the single obstacle overlaps on the y axis only), yet `update_bird`
declares it dead: the source joins the two axis-overlap tests with `||`
where the specified box test requires `&&`. -/
theorem C1_one_axis_overlap_kills :
    ¬ (stepTranslation ⟨0, 1020, 0⟩ (stepVelocity false (1 / 10) 0)
        (1 / 10)).y < 512 / 2
    ∧ stepDead (1 / 10) false 512
        ⟨⟨0, ⟨0, 1020, 0⟩, 0⟩, [⟨1, ⟨1000, 1000, 0⟩⟩]⟩ = true
    ∧ ∀ ob ∈ ([⟨1, ⟨1000, 1000, 0⟩⟩] : List Obstacle),
        ¬ (|ob.translation.y - (stepTranslation ⟨0, 1020, 0⟩
              (stepVelocity false (1 / 10) 0) (1 / 10)).y|
             < OBSTACLE_HEIGHT * PIXEL_RATIO / 2
           ∧ |ob.translation.x - (stepTranslation ⟨0, 1020, 0⟩
              (stepVelocity false (1 / 10) 0) (1 / 10)).x|
             < OBSTACLE_WIDTH * PIXEL_RATIO / 2) := by
  refine ⟨?_, ?_, ?_⟩
  · norm_num [stepTranslation, stepVelocity, velAfterInput, GRAVITY]
  · norm_num [stepDead, birdDead, obstacleHit, stepTranslation, stepVelocity,
      velAfterInput, GRAVITY, OBSTACLE_HEIGHT, OBSTACLE_WIDTH, PIXEL_RATIO,
      abs_lt]
  · intro ob hob
    rw [List.mem_singleton] at hob
    subst hob
    norm_num [stepTranslation, stepVelocity, velAfterInput, GRAVITY,
      OBSTACLE_HEIGHT, OBSTACLE_WIDTH, PIXEL_RATIO, abs_lt]

/-- Claim C2 (code_bug evidence): a surviving step moves the flyer's x (and z)
coordinate away from 0 by `velocity * dt`, because the source adds the scalar
`bird.velocity * delta_secs` to the whole translation vector (glam's scalar
`AddAssign` broadcast); here the flyer starts at x = 0, survives the step, and
ends at x = -20 ≠ 0. -/
theorem C2_x_coordinate_drifts :
    stepDead (1 / 10) false 512
        ⟨⟨0, ⟨0, 1000, 0⟩, 0⟩, [⟨1, ⟨5000, 5000, 0⟩⟩]⟩ = false
    ∧ (update_bird (1 / 10) false (512, 512) (fun _ => 0)
        ⟨⟨0, ⟨0, 1000, 0⟩, 0⟩, [⟨1, ⟨5000, 5000, 0⟩⟩]⟩).bird.translation
        = ⟨-20, 980, -20⟩
    ∧ (update_bird (1 / 10) false (512, 512) (fun _ => 0)
        ⟨⟨0, ⟨0, 1000, 0⟩, 0⟩, [⟨1, ⟨5000, 5000, 0⟩⟩]⟩).bird.translation.x
        ≠ 0 := by
  have hdead : stepDead (1 / 10) false 512
      ⟨⟨0, ⟨0, 1000, 0⟩, 0⟩, [⟨1, ⟨5000, 5000, 0⟩⟩]⟩ = false := by
    norm_num [stepDead, birdDead, obstacleHit, stepTranslation, stepVelocity,
      velAfterInput, GRAVITY, OBSTACLE_HEIGHT, OBSTACLE_WIDTH, PIXEL_RATIO,
      abs_lt]
  refine ⟨hdead, ?_, ?_⟩
  · rw [update_bird]
    rw [hdead]
    norm_num [stepTranslation, stepVelocity, velAfterInput, GRAVITY]
  · rw [update_bird]
    rw [hdead]
    norm_num [stepTranslation, stepVelocity, velAfterInput, GRAVITY]

/-- Element formula for even indices of `spawn_obstacles`: entry `2*i` is the
upward pipe of pair `i`. -/
theorem spawn_obstacles_get_even (offs : ℕ → ℚ) (window_width : ℚ) (i : ℕ)
    (h : 2 * i < (spawn_obstacles offs window_width).length) :
    (spawn_obstacles offs window_width).get ⟨2 * i, h⟩ =
      ⟨1, ⟨window_width / 2 * PIXEL_RATIO * (i : ℚ),
           get_centered_pipe_position + offs i, 0⟩⟩ := by
  have e := spawn_obstacles_get offs window_width (2 * i) h
  have m : 2 * i % 2 = 0 := by omega
  have d : 2 * i / 2 = i := by omega
  rw [m, d] at e
  simpa using e

/-- Element formula for odd indices of `spawn_obstacles`: entry `2*i + 1` is
the downward pipe of pair `i`. -/
theorem spawn_obstacles_get_odd (offs : ℕ → ℚ) (window_width : ℚ) (i : ℕ)
    (h : 2 * i + 1 < (spawn_obstacles offs window_width).length) :
    (spawn_obstacles offs window_width).get ⟨2 * i + 1, h⟩ =
      ⟨-1, ⟨window_width / 2 * PIXEL_RATIO * (i : ℚ),
            -get_centered_pipe_position + offs i, 0⟩⟩ := by
  have e := spawn_obstacles_get offs window_width (2 * i + 1) h
  have m : (2 * i + 1) % 2 = 1 := by omega
  have d : (2 * i + 1) / 2 = i := by omega
  rw [m, d] at e
  simpa using e

/-- Claim C3 (counterexample): immediately after a spawn with screen width 512
the horizontal distance between consecutive pairs is 1024, which is not
`OBSTACLE_SPACING * PIXEL_RATIO = 240`; so pair spacing is not the constant
`OBSTACLE_SPACING` scaled by `PIXEL_RATIO`. -/
theorem C3_spacing_counterexample :
    ((spawn_obstacles (fun _ => 0) 512).get ⟨2, by
        rw [spawn_obstacles_length]; norm_num [OBSTACLE_AMOUNT]⟩).translation.x
      - ((spawn_obstacles (fun _ => 0) 512).get ⟨0, by
        rw [spawn_obstacles_length]; norm_num [OBSTACLE_AMOUNT]⟩).translation.x
      ≠ OBSTACLE_SPACING * PIXEL_RATIO := by
  have e2 := spawn_obstacles_get_even (fun _ => 0) 512 1
    (by rw [spawn_obstacles_length]; norm_num [OBSTACLE_AMOUNT])
  have e0 := spawn_obstacles_get_even (fun _ => 0) 512 0
    (by rw [spawn_obstacles_length]; norm_num [OBSTACLE_AMOUNT])
  norm_num at e2 e0
  simp only [List.get_eq_getElem]
  rw [e2, e0]
  norm_num [ PIXEL_RATIO, OBSTACLE_SPACING, get_centered_pipe_position]

/-- Claim C3 (amended): immediately after `spawn_obstacles` (initial spawn and
every death reset), the two members of pair `i` share the horizontal position
`window_width / 2 * PIXEL_RATIO * i` — so consecutive pairs are spaced by
exactly `window_width / 2 * PIXEL_RATIO`, not `OBSTACLE_SPACING * PIXEL_RATIO`
— and their vertical positions are `±get_centered_pipe_position + offs i`. -/
theorem C3_initial_layout (offs : ℕ → ℚ) (window_width : ℚ) (i : ℕ)
    (h1 : 2 * i < (spawn_obstacles offs window_width).length)
    (h2 : 2 * i + 1 < (spawn_obstacles offs window_width).length) :
    ((spawn_obstacles offs window_width).get ⟨2 * i, h1⟩).translation.x
        = window_width / 2 * PIXEL_RATIO * (i : ℚ)
    ∧ ((spawn_obstacles offs window_width).get ⟨2 * i + 1, h2⟩).translation.x
        = window_width / 2 * PIXEL_RATIO * (i : ℚ)
    ∧ ((spawn_obstacles offs window_width).get ⟨2 * i, h1⟩).translation.y
        = get_centered_pipe_position + offs i
    ∧ ((spawn_obstacles offs window_width).get ⟨2 * i + 1, h2⟩).translation.y
        = -get_centered_pipe_position + offs i
    ∧ ∀ (h3 : 2 * (i + 1) < (spawn_obstacles offs window_width).length),
        ((spawn_obstacles offs window_width).get
            ⟨2 * (i + 1), h3⟩).translation.x
          - ((spawn_obstacles offs window_width).get ⟨2 * i, h1⟩).translation.x
          = window_width / 2 * PIXEL_RATIO := by
  have e1 := spawn_obstacles_get_even offs window_width i h1
  have e2 := spawn_obstacles_get_odd offs window_width i h2
  refine ⟨by rw [e1], by rw [e2], by rw [e1], by rw [e2], ?_⟩
  intro h3
  have e3 := spawn_obstacles_get_even offs window_width (i + 1) h3
  rw [e1, e3]
  push_cast
  ring

/-- Witness for `C3_initial_layout` at pair 0, offsets 0, screen width 512:
the second pair sits exactly `512 / 2 * PIXEL_RATIO = 1024` to the right of
the first. -/
theorem C3_initial_layout_witness :
    ((spawn_obstacles (fun _ => 0) 512).get ⟨2, by
        rw [spawn_obstacles_length]; norm_num [OBSTACLE_AMOUNT]⟩).translation.x
      - ((spawn_obstacles (fun _ => 0) 512).get ⟨0, by
        rw [spawn_obstacles_length]; norm_num [OBSTACLE_AMOUNT]⟩).translation.x
      = 512 / 2 * PIXEL_RATIO := by
  have H := C3_initial_layout (fun _ => 0) 512 0
    (by rw [spawn_obstacles_length]; norm_num [OBSTACLE_AMOUNT])
    (by rw [spawn_obstacles_length]; norm_num [OBSTACLE_AMOUNT])
  have H5 := H.2.2.2.2
    (by rw [spawn_obstacles_length]; norm_num [OBSTACLE_AMOUNT])
  norm_num at H5 ⊢
  convert H5 using 2

/-- Claim C4: from the reset state (flyer at the origin with velocity 0), with
the fixed screen height 512, a single step — for every deltaTime and either
impulse choice, any obstacle list and any rotation — computes the post-step
height `(FLAP_FORCE - GRAVITY*dt)*dt` (impulse) or `-(GRAVITY*dt*dt)` (no
impulse), which never reaches `FLAP_FORCE^2 / (4*GRAVITY) = 31.25`, let alone
`screenHeight/2 = 256`; hence the step always ends dead via the fall check and
`update_bird` returns the flyer to the reset state, looping death-reset
forever. -/
theorem C4_reset_state_always_dies (dt : ℚ) (imp : Bool) (r0 window_width : ℚ)
    (obs : List Obstacle) (offs : ℕ → ℚ) :
    (stepTranslation Vec3.ZERO (stepVelocity imp dt 0) dt).y
        = (if imp then (FLAP_FORCE - GRAVITY * dt) * dt
           else -(GRAVITY * dt * dt))
    ∧ (stepTranslation Vec3.ZERO (stepVelocity imp dt 0) dt).y
        ≤ FLAP_FORCE * FLAP_FORCE / (4 * GRAVITY)
    ∧ (stepTranslation Vec3.ZERO (stepVelocity imp dt 0) dt).y < 512 / 2
    ∧ stepDead dt imp 512 ⟨⟨0, Vec3.ZERO, r0⟩, obs⟩ = true
    ∧ (update_bird dt imp (window_width, 512) offs
        ⟨⟨0, Vec3.ZERO, r0⟩, obs⟩).bird.translation = Vec3.ZERO
    ∧ (update_bird dt imp (window_width, 512) offs
        ⟨⟨0, Vec3.ZERO, r0⟩, obs⟩).bird.velocity = 0 := by
  have hy : (stepTranslation Vec3.ZERO (stepVelocity imp dt 0) dt).y
      = (if imp then (FLAP_FORCE - GRAVITY * dt) * dt
         else -(GRAVITY * dt * dt)) := by
    cases imp <;>
      simp only [stepTranslation, stepVelocity, velAfterInput, Vec3.ZERO,
        if_true, if_false, Bool.false_eq_true, ite_true, ite_false] <;> ring
  have hmax : (stepTranslation Vec3.ZERO (stepVelocity imp dt 0) dt).y
      ≤ FLAP_FORCE * FLAP_FORCE / (4 * GRAVITY) := by
    rw [hy]
    cases imp <;>
      simp only [FLAP_FORCE, GRAVITY, if_true, if_false, Bool.false_eq_true,
        ite_true, ite_false] <;>
      nlinarith [sq_nonneg dt, sq_nonneg (dt - 1 / 8)]
  have hlt : (stepTranslation Vec3.ZERO (stepVelocity imp dt 0) dt).y
      < 512 / 2 := by
    calc (stepTranslation Vec3.ZERO (stepVelocity imp dt 0) dt).y
        ≤ FLAP_FORCE * FLAP_FORCE / (4 * GRAVITY) := hmax
      _ < 512 / 2 := by norm_num [FLAP_FORCE, GRAVITY]
  have hdead : stepDead dt imp 512 ⟨⟨0, Vec3.ZERO, r0⟩, obs⟩ = true := by
    rw [stepDead, birdDead]
    simp only [Bool.or_eq_true, decide_eq_true_eq]
    exact Or.inl hlt
  refine ⟨hy, hmax, hlt, hdead, ?_, ?_⟩ <;>
    · rw [update_bird]
      rw [hdead]
      rfl

/-- Claim C5: during `update_obsacles(deltaTime)` every obstacle's horizontal
position decreases by `OBSTACLE_SCROLL_SPEED * dt`, and it recycles exactly
when the post-scroll position satisfies
`x + OBSTACLE_WIDTH * PIXEL_RATIO / 2 < -window_width / 2`; a recycling
obstacle is pushed forward by exactly
`OBSTACLE_AMOUNT * OBSTACLE_SPACING * PIXEL_RATIO` and its vertical position
becomes `get_centered_pipe_position * pipe_direction + y_offset`, using its
own (unchanged) direction sign. -/
theorem C5_advance_and_recycle (dt y_offset window_width : ℚ)
    (obs : List Obstacle) (i : ℕ) (h : i < obs.length)
    (h' : i < (update_obsacles dt y_offset window_width obs).length) :
    ((update_obsacles dt y_offset window_width obs).get ⟨i, h'⟩).pipe_direction
        = (obs.get ⟨i, h⟩).pipe_direction
    ∧ (¬ ((obs.get ⟨i, h⟩).translation.x - OBSTACLE_SCROLL_SPEED * dt
            + OBSTACLE_WIDTH * PIXEL_RATIO / 2 < -window_width / 2) →
        ((update_obsacles dt y_offset window_width obs).get ⟨i, h'⟩).translation
          = ⟨(obs.get ⟨i, h⟩).translation.x - OBSTACLE_SCROLL_SPEED * dt,
             (obs.get ⟨i, h⟩).translation.y, (obs.get ⟨i, h⟩).translation.z⟩)
    ∧ (((obs.get ⟨i, h⟩).translation.x - OBSTACLE_SCROLL_SPEED * dt
            + OBSTACLE_WIDTH * PIXEL_RATIO / 2 < -window_width / 2) →
        ((update_obsacles dt y_offset window_width obs).get
            ⟨i, h'⟩).translation.x
          = (obs.get ⟨i, h⟩).translation.x - OBSTACLE_SCROLL_SPEED * dt
            + (OBSTACLE_AMOUNT : ℚ) * OBSTACLE_SPACING * PIXEL_RATIO
        ∧ ((update_obsacles dt y_offset window_width obs).get
            ⟨i, h'⟩).translation.y
          = get_centered_pipe_position * (obs.get ⟨i, h⟩).pipe_direction
            + y_offset) := by
  have hcomm : (obs.get ⟨i, h⟩).translation.x - OBSTACLE_SCROLL_SPEED * dt
      = (obs.get ⟨i, h⟩).translation.x - dt * OBSTACLE_SCROLL_SPEED := by ring
  rw [hcomm]
  simp only [update_obsacles, List.get_eq_getElem, List.getElem_map]
  split_ifs with hcond
  · exact ⟨rfl, fun hn => absurd hcond hn, fun _ => ⟨rfl, rfl⟩⟩
  · exact ⟨rfl, fun _ => rfl, fun hc => absurd hc hcond⟩

/-- Witness for `C5_advance_and_recycle`: a single obstacle at x = -400 with
dt = 1 scrolls to -550, trips the recycle test
(`-550 + 64 < -256`), and ends at `x = -550 + 1200 = 650`,
`y = 348 * 1 + 7 = 355`. -/
theorem C5_advance_and_recycle_witness :
    ((update_obsacles 1 7 512 [⟨1, ⟨-400, 348, 0⟩⟩]).get ⟨0, by
        simp [update_obsacles]⟩).translation.x = 650
    ∧ ((update_obsacles 1 7 512 [⟨1, ⟨-400, 348, 0⟩⟩]).get ⟨0, by
        simp [update_obsacles]⟩).translation.y = 355 := by
  have H := C5_advance_and_recycle 1 7 512 [⟨1, ⟨-400, 348, 0⟩⟩] 0
    (by norm_num) (by simp [update_obsacles])
  have hc : ((-400 : ℚ)) - OBSTACLE_SCROLL_SPEED * 1
      + OBSTACLE_WIDTH * PIXEL_RATIO / 2 < -(512 : ℚ) / 2 := by
    norm_num [OBSTACLE_SCROLL_SPEED, OBSTACLE_WIDTH, PIXEL_RATIO]
  obtain ⟨hx, hy⟩ := H.2.2 hc
  refine ⟨?_, ?_⟩
  · rw [hx]
    norm_num [OBSTACLE_SCROLL_SPEED, OBSTACLE_AMOUNT, OBSTACLE_SPACING,
      PIXEL_RATIO]
  · rw [hy]
    norm_num [get_centered_pipe_position, OBSTACLE_HEIGHT, OBSTACLE_GAP_SIZE,
      PIXEL_RATIO]

/-- Claim C6: `update_obsacles` draws its random offset once per call (the
single `y_offset` argument, mirroring the single `generate_offset` call before
the loop in the source), so any two obstacles that recycle in the same call
receive the same offset: subtracting each one's
`get_centered_pipe_position * pipe_direction` term from its new vertical
position leaves the one shared `y_offset` for both. -/
theorem C6_shared_offset_per_call (dt y_offset window_width : ℚ)
    (obs : List Obstacle) (i j : ℕ) (hi : i < obs.length) (hj : j < obs.length)
    (hi' : i < (update_obsacles dt y_offset window_width obs).length)
    (hj' : j < (update_obsacles dt y_offset window_width obs).length)
    (hri : (obs.get ⟨i, hi⟩).translation.x - dt * OBSTACLE_SCROLL_SPEED
        + OBSTACLE_WIDTH * PIXEL_RATIO / 2 < -window_width / 2)
    (hrj : (obs.get ⟨j, hj⟩).translation.x - dt * OBSTACLE_SCROLL_SPEED
        + OBSTACLE_WIDTH * PIXEL_RATIO / 2 < -window_width / 2) :
    ((update_obsacles dt y_offset window_width obs).get ⟨i, hi'⟩).translation.y
        - get_centered_pipe_position * (obs.get ⟨i, hi⟩).pipe_direction
        = y_offset
    ∧ ((update_obsacles dt y_offset window_width obs).get
          ⟨j, hj'⟩).translation.y
        - get_centered_pipe_position * (obs.get ⟨j, hj⟩).pipe_direction
        = y_offset := by
  constructor
  · simp only [update_obsacles, List.get_eq_getElem, List.getElem_map]
    rw [if_pos (by simpa using hri)]
    ring
  · simp only [update_obsacles, List.get_eq_getElem, List.getElem_map]
    rw [if_pos (by simpa using hrj)]
    ring

/-- Witness for `C6_shared_offset_per_call`: two obstacles (one of each
direction) both recycle in the same call with shared offset 7; each ends with
`y - get_centered_pipe_position * pipe_direction = 7`. -/
theorem C6_shared_offset_per_call_witness :
    ((update_obsacles 1 7 512
        [⟨1, ⟨-400, 348, 0⟩⟩, ⟨-1, ⟨-500, -348, 0⟩⟩]).get ⟨0, by
          simp [update_obsacles]⟩).translation.y
      - get_centered_pipe_position
        * (([⟨1, ⟨-400, 348, 0⟩⟩, ⟨-1, ⟨-500, -348, 0⟩⟩] :
            List Obstacle).get ⟨0, by norm_num⟩).pipe_direction = 7
    ∧ ((update_obsacles 1 7 512
        [⟨1, ⟨-400, 348, 0⟩⟩, ⟨-1, ⟨-500, -348, 0⟩⟩]).get ⟨1, by
          simp [update_obsacles]⟩).translation.y
      - get_centered_pipe_position
        * (([⟨1, ⟨-400, 348, 0⟩⟩, ⟨-1, ⟨-500, -348, 0⟩⟩] :
            List Obstacle).get ⟨1, by norm_num⟩).pipe_direction = 7 := by
  exact C6_shared_offset_per_call 1 7 512
    [⟨1, ⟨-400, 348, 0⟩⟩, ⟨-1, ⟨-500, -348, 0⟩⟩] 0 1
    (by norm_num) (by norm_num)
    (by simp [update_obsacles]) (by simp [update_obsacles])
    (by norm_num [OBSTACLE_SCROLL_SPEED, OBSTACLE_WIDTH, PIXEL_RATIO])
    (by norm_num [OBSTACLE_SCROLL_SPEED, OBSTACLE_WIDTH, PIXEL_RATIO])

/-- Claim C7: whenever a step ends in death, `update_bird` resets the flyer's
translation to the origin and its velocity to 0, and the obstacle pool is
exactly the fresh `spawn_obstacles` layout for the current screen width (with
the new random draws `offs`), holding `2 * OBSTACLE_AMOUNT` obstacles —
`OBSTACLE_AMOUNT` pairs. -/
theorem C7_death_resets_and_respawns (dt : ℚ) (imp : Bool)
    (window_width window_height : ℚ) (offs : ℕ → ℚ) (w : World)
    (hdead : stepDead dt imp window_height w = true) :
    (update_bird dt imp (window_width, window_height) offs
        w).bird.translation = Vec3.ZERO
    ∧ (update_bird dt imp (window_width, window_height) offs
        w).bird.velocity = 0
    ∧ (update_bird dt imp (window_width, window_height) offs
        w).obstacles = spawn_obstacles offs window_width
    ∧ (update_bird dt imp (window_width, window_height) offs
        w).obstacles.length = 2 * OBSTACLE_AMOUNT := by
  rw [update_bird]
  rw [hdead]
  exact ⟨rfl, rfl, rfl, spawn_obstacles_length offs window_width⟩

/-- Witness for `C7_death_resets_and_respawns`: from the reset state with no
obstacles, a step with dt = 1/10 falls to y = -20 < 256 and dies; the reset
leaves the flyer at the origin with velocity 0 and 10 freshly spawned
obstacles. -/
theorem C7_death_resets_and_respawns_witness :
    (update_bird (1 / 10) false (512, 512) (fun _ => 0)
        ⟨⟨0, Vec3.ZERO, 0⟩, []⟩).bird.translation = Vec3.ZERO
    ∧ (update_bird (1 / 10) false (512, 512) (fun _ => 0)
        ⟨⟨0, Vec3.ZERO, 0⟩, []⟩).bird.velocity = 0
    ∧ (update_bird (1 / 10) false (512, 512) (fun _ => 0)
        ⟨⟨0, Vec3.ZERO, 0⟩, []⟩).obstacles.length = 2 * OBSTACLE_AMOUNT := by
  have H := C7_death_resets_and_respawns (1 / 10) false 512 512 (fun _ => 0)
    ⟨⟨0, Vec3.ZERO, 0⟩, []⟩
    (by norm_num [stepDead, birdDead, stepTranslation, stepVelocity,
      velAfterInput, Vec3.ZERO, GRAVITY])
  exact ⟨H.1, H.2.1, H.2.2.2⟩

/-- Claim C8: an impulse frame sets the velocity to exactly `FLAP_FORCE`
before gravity — an absolute set, not additive — so the in-step velocity is
`FLAP_FORCE - GRAVITY * dt` whatever the prior velocity was, and the whole
post-step world is independent of the pre-step velocity (idempotent under
repeated same-frame requests). -/
theorem C8_impulse_is_absolute (dt window_width window_height : ℚ)
    (offs : ℕ → ℚ) (pos : Vec3) (rot v1 v2 : ℚ) (obs : List Obstacle) :
    stepVelocity true dt v1 = FLAP_FORCE - GRAVITY * dt
    ∧ update_bird dt true (window_width, window_height) offs
        ⟨⟨v1, pos, rot⟩, obs⟩
      = update_bird dt true (window_width, window_height) offs
        ⟨⟨v2, pos, rot⟩, obs⟩ := by
  constructor
  · simp only [stepVelocity, velAfterInput, if_true]
    ring
  · rfl

/-- Claim C9: with no impulse, a step that does not end in death changes the
velocity by exactly `-GRAVITY * dt` (no lower floor), hence strictly decreases
it whenever `dt > 0`; a step that ends in death sets the velocity to 0. -/
theorem C9_gravity_decrement (dt window_width window_height : ℚ)
    (offs : ℕ → ℚ) (w : World) :
    (stepDead dt false window_height w = false →
        (update_bird dt false (window_width, window_height) offs
            w).bird.velocity = w.bird.velocity - GRAVITY * dt
        ∧ (0 < dt →
            (update_bird dt false (window_width, window_height) offs
              w).bird.velocity < w.bird.velocity))
    ∧ (stepDead dt false window_height w = true →
        (update_bird dt false (window_width, window_height) offs
          w).bird.velocity = 0) := by
  constructor
  · intro halive
    have hv : (update_bird dt false (window_width, window_height) offs
        w).bird.velocity = w.bird.velocity - GRAVITY * dt := by
      rw [update_bird]
      rw [halive]
      simp only [Bool.false_eq_true, if_false, stepVelocity, velAfterInput,
        ite_false]
      ring
    refine ⟨hv, fun hdt => ?_⟩
    rw [hv]
    have : 0 < GRAVITY * dt := by
      have : (0 : ℚ) < GRAVITY := by norm_num [GRAVITY]
      positivity
    linarith
  · intro hdead
    rw [update_bird]
    rw [hdead]
    rfl

/-- Witness for `C9_gravity_decrement`: from y = 1000 with no obstacles the
step with dt = 1/10 survives (y becomes 980 ≥ 256) and the velocity drops from
0 to `0 - 2000 * (1/10) = -200 < 0`; a separate dying step (from the origin)
ends with velocity 0. -/
theorem C9_gravity_decrement_witness :
    (update_bird (1 / 10) false (512, 512) (fun _ => 0)
        ⟨⟨0, ⟨0, 1000, 0⟩, 0⟩, []⟩).bird.velocity = -200
    ∧ (update_bird (1 / 10) false (512, 512) (fun _ => 0)
        ⟨⟨0, ⟨0, 1000, 0⟩, 0⟩, []⟩).bird.velocity < 0
    ∧ (update_bird (1 / 10) false (512, 512) (fun _ => 0)
        ⟨⟨0, Vec3.ZERO, 0⟩, []⟩).bird.velocity = 0 := by
  have halive : stepDead (1 / 10) false 512 ⟨⟨0, ⟨0, 1000, 0⟩, 0⟩, []⟩
      = false := by
    norm_num [stepDead, birdDead, stepTranslation, stepVelocity, velAfterInput,
      GRAVITY]
  have H := C9_gravity_decrement (1 / 10) 512 512 (fun _ => 0)
    ⟨⟨0, ⟨0, 1000, 0⟩, 0⟩, []⟩
  have H1 := (H.1 halive).1
  have H2 := (H.1 halive).2 (by norm_num)
  have H3 := (C9_gravity_decrement (1 / 10) 512 512 (fun _ => 0)
      ⟨⟨0, Vec3.ZERO, 0⟩, []⟩).2
    (by norm_num [stepDead, birdDead, stepTranslation, stepVelocity,
      velAfterInput, Vec3.ZERO, GRAVITY])
  refine ⟨?_, ?_, H3⟩
  · rw [H1]
    norm_num [GRAVITY]
  · calc (update_bird (1 / 10) false (512, 512) (fun _ => 0)
        ⟨⟨0, ⟨0, 1000, 0⟩, 0⟩, []⟩).bird.velocity < 0 - GRAVITY * 0 := by
          simpa using H2
      _ = 0 := by ring

/-- Claim C10: a death reset does not reset the flyer's orientation: in a dying
step the stored rotation is the one just computed from the in-step velocity
(`stepVelocity` of the pre-death velocity), while the velocity itself is
zeroed — so the renderer sees an orientation reflecting the pre-death
velocity, not the zeroed one. -/
theorem C10_rotation_survives_reset (dt : ℚ) (imp : Bool)
    (window_width window_height : ℚ) (offs : ℕ → ℚ) (w : World)
    (hdead : stepDead dt imp window_height w = true) :
    (update_bird dt imp (window_width, window_height) offs
        w).bird.rotationDeg
      = rotationFromVelocity (stepVelocity imp dt w.bird.velocity)
    ∧ (update_bird dt imp (window_width, window_height) offs
        w).bird.velocity = 0 := by
  rw [update_bird]
  rw [hdead]
  exact ⟨rfl, rfl⟩

/-- Witness for `C10_rotation_survives_reset`: the dying step from the reset
state with dt = 1/10 stores rotation
`rotationFromVelocity (-200) = -200 / 7.5 = -80/3`, which differs from the
rotation a zeroed velocity would give (`rotationFromVelocity 0 = 0`). -/
theorem C10_rotation_survives_reset_witness :
    (update_bird (1 / 10) false (512, 512) (fun _ => 0)
        ⟨⟨0, Vec3.ZERO, 0⟩, []⟩).bird.rotationDeg = -80 / 3
    ∧ (update_bird (1 / 10) false (512, 512) (fun _ => 0)
        ⟨⟨0, Vec3.ZERO, 0⟩, []⟩).bird.rotationDeg ≠ rotationFromVelocity 0 := by
  have H := C10_rotation_survives_reset (1 / 10) false 512 512 (fun _ => 0)
    ⟨⟨0, Vec3.ZERO, 0⟩, []⟩
    (by norm_num [stepDead, birdDead, stepTranslation, stepVelocity,
      velAfterInput, Vec3.ZERO, GRAVITY])
  have hrot : (update_bird (1 / 10) false (512, 512) (fun _ => 0)
      ⟨⟨0, Vec3.ZERO, 0⟩, []⟩).bird.rotationDeg = -80 / 3 := by
    rw [H.1]
    rw [show stepVelocity false (1 / 10) (0 : ℚ) = -200 by
      norm_num [stepVelocity, velAfterInput, GRAVITY]]
    rw [rotationFromVelocity]
    norm_num [ VELOCITY_TO_ROTATION_RATIO]
  refine ⟨hrot, ?_⟩
  rw [hrot, rotationFromVelocity]
  norm_num
